import Mathlib

/-!
Verification of the mcpsock FastMCP WebSocket router (`src/mcpsock/server.py`)
against its natural-language specification.

The Python code is shallowly embedded:
* JSON values become the inductive `JValue`; a parsed message dict becomes
  the structure `Message` holding exactly the three fields `dispatch_message`
  extracts (`message.get("id")`, `message.get("method", "")`,
  `message.get("params", {})`).
* Python dicts become association lists with Python assignment/`del`
  semantics (`dictInsert` replaces in place, `dictRemove` / lookup miss are
  no-ops / `none`).
* `async` handlers that may raise become pure functions returning
  `Except PyExc JValue`; a `PyExc` records whether the raised exception is a
  `ValueError` (the one class `dispatch_message` catches separately) and its
  `str(e)` text.
* `websocket.send_json` calls become elements of the returned envelope list;
  the transport is modelled as always writable.
* Sources of nondeterminism at the session boundary (the outcome of
  `websocket.accept()`, the frames produced by `iter_text()`, how the
  iteration ends, the `uuid.uuid4()` value) are inputs of the embedded
  `handle_websocket`.
-/

/-- A JSON value, as produced by `json.loads`. -/
inductive JValue where
  | null : JValue
  | bool (b : Bool) : JValue
  | num (n : Int) : JValue
  | str (s : String) : JValue
  | arr (elems : List JValue) : JValue
  | obj (fields : List (String × JValue)) : JValue

/-- The three fields of an inbound message dict that the router reads:
`message.get("id")` (absent ↦ `none`, and Python treats a JSON `null` id the
same as an absent one), `message.get("method", "")`, and
`message.get("params", {})`. -/
structure Message where
  id : Option JValue := none
  method : String := ""
  params : JValue := .obj []

/-- A raised Python exception as `dispatch_message` observes it: whether it
is a `ValueError` (caught by the dedicated `except ValueError` branch) and
its `str(e)` text. -/
structure PyExc where
  isValueError : Bool
  msg : String
deriving DecidableEq

/-- A handler: `async def handler(message, websocket) -> Any`, which may
raise.  The websocket argument is not consulted by the routing and dispatch
logic under verification, so handlers are embedded as functions of the
message alone. -/
def Handler : Type := Message → Except PyExc JValue

/-- `MessageType` enum from `server.py`. -/
inductive MessageType where
  | INITIALIZE | LIST_TOOLS | LIST_RESOURCES | LIST_PROMPTS
  | TOOL_CALL | RESOURCE_CALL | PROMPT_CALL | METHOD_CALL
  | NOTIFICATION | UNKNOWN
deriving DecidableEq, Repr

/-- An outbound frame passed to `websocket.send_json`: either a success
response `{"id": id, "result": result}` or an error response
`{"id"?: id, "error": {"code": code, "message": message}}` (the `-32700`
parse-failure envelope carries no id). -/
inductive Envelope where
  | result (id : JValue) (res : JValue) : Envelope
  | error (id : Option JValue) (code : Int) (message : String) : Envelope

/-- `d.get(k)` on a Python dict embedded as an association list. -/
def dictLookup {κ α : Type} [DecidableEq κ] : List (κ × α) → κ → Option α
  | [], _ => none
  | (k', v) :: rest, k => if k = k' then some v else dictLookup rest k

/-- `d[k] = v` on a Python dict: replaces the binding in place if the key is
present, appends it otherwise. -/
def dictInsert {κ α : Type} [DecidableEq κ] : List (κ × α) → κ → α → List (κ × α)
  | [], k, v => [(k, v)]
  | (k', v') :: rest, k, v =>
      if k = k' then (k, v) :: rest else (k', v') :: dictInsert rest k v

/-- `if k in d: del d[k]` on a Python dict (a no-op when the key is absent,
exactly as `ConnectionManager.remove_connection` guards its deletes). -/
def dictRemove {κ α : Type} [DecidableEq κ] : List (κ × α) → κ → List (κ × α)
  | [], _ => []
  | (k', v) :: rest, k =>
      if k = k' then dictRemove rest k else (k', v) :: dictRemove rest k

/-- `method.startswith(p)`, on the character lists of the strings. -/
def strStartsWith (s p : String) : Prop :=
  s.data.take p.data.length = p.data

instance (s p : String) : Decidable (strStartsWith s p) := by
  unfold strStartsWith; infer_instance

/-- Guarded lookup mirroring Python's `if cond and lookup:`-style checks in
`get_handler_for_message`: the value is consulted only when the guard
holds. -/
def optGuard {α : Type} (c : Prop) [Decidable c] (o : Option α) : Option α :=
  if c then o else none

/-- The handler registry and configuration of a `FastMCPWebSocketRouter`.
Keyed categories are dicts keyed by full path/name; singleton categories are
optional fields.  `active_connections` and the `ConnectionManager`'s tables
are per-router mutable state and live in `SessionState` instead.  The
constructor creates `connection_manager` exactly when
`enable_connection_tracking` is set, so the code's
`self.enable_connection_tracking and self.connection_manager` tests are
embedded as the single flag. -/
structure Router where
  route_handlers : List (String × Handler) := []
  tool_handlers : List (String × Handler) := []
  resource_handlers : List (String × Handler) := []
  prompt_handlers : List (String × Handler) := []
  method_handlers : List (String × Handler) := []
  fallback_handler : Option Handler := none
  initialize_handler : Option Handler := none
  list_tools_handler : Option Handler := none
  list_resources_handler : Option Handler := none
  list_prompts_handler : Option Handler := none
  on_disconnect_handler : Option Handler := none
  enable_connection_tracking : Bool := false

/-- `FastMCPWebSocketRouter.get_handler_for_message`.  Each `match` on an
`optGuard` embeds one `if cond and handler: return handler, type` statement;
the final `.error` is the `raise ValueError(f"No handler registered for
method: {method}")`. -/
def get_handler_for_message (r : Router) (message : Message) :
    Except PyExc (Handler × MessageType) :=
  let method := message.method
  match optGuard (method = "initialize") r.initialize_handler with
  | some handler => .ok (handler, .INITIALIZE)
  | none =>
  match optGuard (method = "list_tools") r.list_tools_handler with
  | some handler => .ok (handler, .LIST_TOOLS)
  | none =>
  match optGuard (method = "list_resources") r.list_resources_handler with
  | some handler => .ok (handler, .LIST_RESOURCES)
  | none =>
  match optGuard (method = "list_prompts") r.list_prompts_handler with
  | some handler => .ok (handler, .LIST_PROMPTS)
  | none =>
  match optGuard (strStartsWith method "/tools/") (dictLookup r.tool_handlers method) with
  | some handler => .ok (handler, .TOOL_CALL)
  | none =>
  match optGuard (strStartsWith method "/resources/") (dictLookup r.resource_handlers method) with
  | some handler => .ok (handler, .RESOURCE_CALL)
  | none =>
  match optGuard (strStartsWith method "/prompts/") (dictLookup r.prompt_handlers method) with
  | some handler => .ok (handler, .PROMPT_CALL)
  | none =>
  match dictLookup r.method_handlers method with
  | some handler => .ok (handler, .METHOD_CALL)
  | none =>
  match r.fallback_handler with
  | some handler => .ok (handler, .UNKNOWN)
  | none => .error ⟨true, "No handler registered for method: " ++ method⟩

/-- `FastMCPWebSocketRouter.dispatch_message`, returning the list of frames
passed to `websocket.send_json` (zero or one).  Resolution raising
`ValueError`, and a handler raising `ValueError`, are both caught by the
same `except ValueError` branch and produce the `-32601` envelope built from
the method name; any other handler exception produces the `-32000` envelope
built from `str(e)`.  Nothing is sent when `msg_id` is `None`, and no
exception escapes (the function is total). -/
def dispatch_message (r : Router) (message : Message) : List Envelope :=
  let method := message.method
  let msg_id := message.id
  match get_handler_for_message r message with
  | .ok (handler, _msg_type) =>
      match handler message with
      | .ok result =>
          match msg_id with
          | some i => [.result i result]
          | none => []
      | .error e =>
          if e.isValueError then
            match msg_id with
            | some i => [.error (some i) (-32601) ("Method not found: " ++ method)]
            | none => []
          else
            match msg_id with
            | some i => [.error (some i) (-32000) ("Error: " ++ e.msg)]
            | none => []
  | .error _ =>
      match msg_id with
      | some i => [.error (some i) (-32601) ("Method not found: " ++ method)]
      | none => []

/-- The routing category `get_handler_for_message` resolves a method name
to, or `none` when resolution raises `ValueError` (no handler and no
fallback). -/
def resolutionCategory (r : Router) (method : String) : Option MessageType :=
  match get_handler_for_message r { method := method } with
  | .ok (_, msg_type) => some msg_type
  | .error _ => none

/-- The per-router mutable state touched by the connection lifecycle:
`self.active_connections` (a set of websocket handles, embedded as a
duplicate-free list), the `ConnectionManager`'s two tables
(`self.connections`, `self.connection_data`), and the `connection_id`
attributes that `add_connection` stashes on websocket objects via
`setattr` (embedded as a side table from handle to identifier, since the
embedding cannot mutate the handle itself). -/
structure SessionState where
  active_connections : List Nat := []
  mgr_connections : List (String × Nat) := []
  mgr_data : List (String × List (String × JValue)) := []
  ws_attrs : List (Nat × String) := []

/-- `ConnectionManager.add_connection`.  The `uuid.uuid4()` result is the
`fresh` input.  Indexes the websocket and an empty data bag under the new
identifier and stashes the identifier on the websocket object. -/
def add_connection (st : SessionState) (fresh : String) (ws : Nat) :
    SessionState × String :=
  ({ st with
      mgr_connections := dictInsert st.mgr_connections fresh ws
      mgr_data := dictInsert st.mgr_data fresh []
      ws_attrs := dictInsert st.ws_attrs ws fresh },
   fresh)

/-- `ConnectionManager.remove_connection`: deletes the index entry and the
data bag when present; a no-op for an unknown identifier.  The
`connection_id` attribute on the websocket object is left untouched. -/
def remove_connection (st : SessionState) (connection_id : String) : SessionState :=
  { st with
      mgr_connections := dictRemove st.mgr_connections connection_id
      mgr_data := dictRemove st.mgr_data connection_id }

/-- `ConnectionManager.get_connection_data`: `self.connection_data.get(connection_id, {})`. -/
def mgr_get_connection_data (st : SessionState) (connection_id : String) :
    List (String × JValue) :=
  (dictLookup st.mgr_data connection_id).getD []

/-- `ConnectionManager.set_connection_data`: writes through only when the
identifier is present in `self.connection_data`. -/
def mgr_set_connection_data (st : SessionState) (connection_id : String)
    (key : String) (value : JValue) : SessionState :=
  match dictLookup st.mgr_data connection_id with
  | some bag =>
      { st with mgr_data := dictInsert st.mgr_data connection_id (dictInsert bag key value) }
  | none => st

/-- `FastMCPWebSocketRouter.get_connection_id`: `None` when tracking is
disabled, else `getattr(websocket, "connection_id", None)`. -/
def get_connection_id (r : Router) (st : SessionState) (ws : Nat) : Option String :=
  if !r.enable_connection_tracking then none
  else dictLookup st.ws_attrs ws

/-- `FastMCPWebSocketRouter.get_connection_data`.  `key = none` embeds the
Python default `key=None`, which returns the whole bag; `key = some k`
returns `data.get(k)`.  The `if not connection_id` test in the source treats
the empty string as falsy, hence the explicit `cid = ""` check. -/
def router_get_connection_data (r : Router) (st : SessionState) (ws : Nat)
    (key : Option String) : Option JValue :=
  if !r.enable_connection_tracking then none
  else
    match get_connection_id r st ws with
    | none => none
    | some cid =>
        if cid = "" then none
        else
          let data := mgr_get_connection_data st cid
          match key with
          | none => some (.obj data)
          | some k => dictLookup data k

/-- `FastMCPWebSocketRouter.set_connection_data`: a no-op when tracking is
disabled or no (truthy) identifier is attached to the websocket. -/
def router_set_connection_data (r : Router) (st : SessionState) (ws : Nat)
    (key : String) (value : JValue) : SessionState :=
  if !r.enable_connection_tracking then st
  else
    match get_connection_id r st ws with
    | none => st
    | some cid =>
        if cid = "" then st
        else mgr_set_connection_data st cid key value

/-- One element of the `iter_text()` stream, with the outcome of
`json.loads` made explicit: either a text frame that parses to the message
`data`, or one that raises `json.JSONDecodeError`. -/
inductive Frame where
  | valid (data : Message) : Frame
  | invalid (raw : String) : Frame

/-- How `await websocket.accept()` resolves: success, a
`WebSocketDisconnect`, or any other exception. -/
inductive AcceptOutcome where
  | ok : AcceptOutcome
  | disconnected : AcceptOutcome
  | failed (msg : String) : AcceptOutcome
deriving DecidableEq, Repr

/-- How the `async for message in websocket.iter_text()` loop ends after
yielding its frames: normal exhaustion, a `WebSocketDisconnect`, or any
other exception.  All three are caught inside `handle_websocket` and fall
through to the same `finally` block. -/
inductive LoopEnd where
  | closed : LoopEnd
  | disconnected : LoopEnd
  | failed (msg : String) : LoopEnd
deriving DecidableEq, Repr

/-- The transport-side behaviour of one connection, i.e. everything the
environment chooses during `handle_websocket`. -/
structure Script where
  accept : AcceptOutcome
  frames : List Frame
  ending : LoopEnd

/-- The observable outcome of one `handle_websocket` call: the envelopes
sent, the messages the ON_DISCONNECT handler was invoked with, and how many
times the teardown block actually removed a registry entry / an
active-set member. -/
structure SessionResult where
  sent : List Envelope
  on_disconnect_invocations : List Message
  registry_removals : Nat
  active_removals : Nat

/-- `FastMCPWebSocketRouter._process_message`: parse, then dispatch; a
`json.JSONDecodeError` sends the id-less `-32700` envelope and returns
normally, so the caller's receive loop continues. -/
def process_message (r : Router) (frame : Frame) : List Envelope :=
  match frame with
  | .valid data => dispatch_message r data
  | .invalid _ => [.error none (-32700) "Invalid JSON"]

/-- The `finally` block of `handle_websocket`.  Step (a) invokes the
ON_DISCONNECT handler with the synthetic message `{"method": "on_disconnect"}`,
its result or exception discarded; step (b) removes the registry entry when
tracking is on and a truthy `connection_id` attribute is present; step (c)
removes the websocket from the active set when it is a member. -/
def session_teardown (r : Router) (st : SessionState) (ws : Nat) :
    SessionState × List Message × Nat × Nat :=
  let invocations :=
    match r.on_disconnect_handler with
    | some handler =>
        let _ := handler { method := "on_disconnect" }
        [{ method := "on_disconnect" : Message }]
    | none => []
  let (st1, registry_removals) :=
    if r.enable_connection_tracking then
      match dictLookup st.ws_attrs ws with
      | some cid => if cid = "" then (st, 0) else (remove_connection st cid, 1)
      | none => (st, 0)
    else (st, 0)
  let (st2, active_removals) :=
    if ws ∈ st1.active_connections then
      ({ st1 with active_connections := st1.active_connections.erase ws }, 1)
    else (st1, 0)
  (st2, invocations, registry_removals, active_removals)

/-- `self.active_connections.add(websocket)` on a Python set. -/
def setAdd (l : List Nat) (x : Nat) : List Nat :=
  if x ∈ l then l else x :: l

/-- `FastMCPWebSocketRouter.handle_websocket`.  On successful accept the
websocket joins the active set, is registered with the `ConnectionManager`
when tracking is on, and the message loop processes each frame; however the
loop ends (exhaustion, `WebSocketDisconnect`, or another exception), control
reaches the `finally` block.  When `accept()` itself raises, the loop never
runs and control reaches the `finally` block directly. -/
def handle_websocket (r : Router) (fresh : String) (ws : Nat) (script : Script)
    (st : SessionState) : SessionState × SessionResult :=
  match script.accept with
  | .ok =>
      let st1 := { st with active_connections := setAdd st.active_connections ws }
      let st2 :=
        if r.enable_connection_tracking then (add_connection st1 fresh ws).1
        else st1
      let sent := script.frames.flatMap (process_message r)
      let (st3, invocations, registry_removals, active_removals) :=
        session_teardown r st2 ws
      (st3, ⟨sent, invocations, registry_removals, active_removals⟩)
  | _ =>
      let (st3, invocations, registry_removals, active_removals) :=
        session_teardown r st ws
      (st3, ⟨[], invocations, registry_removals, active_removals⟩)

/-! ## Specification-side resolution (for checking the lookup order, C4)

The following definitions are written from the specification's words, not
from the source: "lookup order is fixed (system name → namespaced path →
general method → fallback → failure); the first matching, non-empty
registration wins."  `resolve_spec` tries the four categories in that order
and fails only when all four miss. -/

/-- First alternative that produced a value ("the first matching, non-empty
registration wins"). -/
def firstOf {α : Type} (a b : Option α) : Option α :=
  match a with
  | some x => some x
  | none => b

/-- Spec category 1: the four exact system names, each backed by its
singleton registration. -/
def spec_system_lookup (r : Router) (method : String) : Option (Handler × MessageType) :=
  if method = "initialize" then r.initialize_handler.map (fun h => (h, .INITIALIZE))
  else if method = "list_tools" then r.list_tools_handler.map (fun h => (h, .LIST_TOOLS))
  else if method = "list_resources" then r.list_resources_handler.map (fun h => (h, .LIST_RESOURCES))
  else if method = "list_prompts" then r.list_prompts_handler.map (fun h => (h, .LIST_PROMPTS))
  else none

/-- Spec category 2: a path matching one of the three namespaces is looked
up in that namespace's keyed mapping, keyed by the full path. -/
def spec_namespaced_lookup (r : Router) (method : String) : Option (Handler × MessageType) :=
  if strStartsWith method "/tools/" then
    (dictLookup r.tool_handlers method).map (fun h => (h, .TOOL_CALL))
  else if strStartsWith method "/resources/" then
    (dictLookup r.resource_handlers method).map (fun h => (h, .RESOURCE_CALL))
  else if strStartsWith method "/prompts/" then
    (dictLookup r.prompt_handlers method).map (fun h => (h, .PROMPT_CALL))
  else none

/-- Spec category 3: the general method mapping. -/
def spec_general_lookup (r : Router) (method : String) : Option (Handler × MessageType) :=
  (dictLookup r.method_handlers method).map (fun h => (h, .METHOD_CALL))

/-- Spec category 4: the fallback handler. -/
def spec_fallback_lookup (r : Router) : Option (Handler × MessageType) :=
  r.fallback_handler.map (fun h => (h, .UNKNOWN))

/-- The spec's resolution contract: system name → namespaced path → general
method → fallback → failure. -/
def resolve_spec (r : Router) (method : String) : Except PyExc (Handler × MessageType) :=
  match firstOf (spec_system_lookup r method)
          (firstOf (spec_namespaced_lookup r method)
            (firstOf (spec_general_lookup r method) (spec_fallback_lookup r))) with
  | some res => .ok res
  | none => .error ⟨true, "No handler registered for method: " ++ method⟩

/-! ## Concrete fixtures used by counterexamples and witnesses -/

/-- A handler that returns `"ok"`. -/
def hOk : Handler := fun _ => .ok (.str "ok")

/-- A handler that raises `ValueError("boom")`. -/
def hValueError : Handler := fun _ => .error ⟨true, "boom"⟩

/-- A handler that raises `RuntimeError("Test handler error")`. -/
def hRuntimeError : Handler := fun _ => .error ⟨false, "Test handler error"⟩

/-- A router whose only registration is the METHOD handler at the name
`"/tools/x"` (no TOOL registration, no fallback). -/
def rC1 : Router := { method_handlers := [("/tools/x", hOk)] }

/-- A router whose only registration is a METHOD handler at `"m"` that
raises `ValueError`. -/
def rC3 : Router := { method_handlers := [("m", hValueError)] }

/-- A router whose only registration is a METHOD handler at `"m"` that
raises a non-`ValueError` exception. -/
def rC3b : Router := { method_handlers := [("m", hRuntimeError)] }

/-- A router with no registrations at all. -/
def r0 : Router := {}

/-- A router whose only registration is a fallback handler. -/
def rFb : Router := { fallback_handler := some hOk }

/-- A tracking-enabled router with an ON_DISCONNECT handler registered (the
constructor always registers one). -/
def rC2 : Router := { on_disconnect_handler := some hOk, enable_connection_tracking := true }

/-- A tracking-enabled router (for the data round-trip claims). -/
def rTrack : Router := { enable_connection_tracking := true }

/-- A session state holding one tracked live connection: websocket handle
`0` with identifier `"c"` and an empty data bag. -/
def stTracked : SessionState :=
  { active_connections := [0]
    mgr_connections := [("c", 0)]
    mgr_data := [("c", [])]
    ws_attrs := [(0, "c")] }

/-! ## Helper lemmas -/

theorem optGuard_pos {α : Type} {c : Prop} [Decidable c] (h : c) (o : Option α) :
    optGuard c o = o := by
  simp [optGuard, h]

theorem optGuard_neg {α : Type} {c : Prop} [Decidable c] (h : ¬c) (o : Option α) :
    optGuard c o = none := by
  simp [optGuard, h]

theorem dictLookup_insert_self {κ α : Type} [DecidableEq κ]
    (d : List (κ × α)) (k : κ) (v : α) :
    dictLookup (dictInsert d k v) k = some v := by
  induction d with
  | nil => simp [dictInsert, dictLookup]
  | cons hd tl ih =>
      obtain ⟨k', v'⟩ := hd
      by_cases h : k = k'
      · simp [dictInsert, dictLookup, h]
      · simp [dictInsert, dictLookup, h, ih]

theorem dictLookup_insert_ne {κ α : Type} [DecidableEq κ]
    (d : List (κ × α)) (k k' : κ) (v : α) (h : k' ≠ k) :
    dictLookup (dictInsert d k v) k' = dictLookup d k' := by
  induction d with
  | nil => simp [dictInsert, dictLookup, h]
  | cons hd tl ih =>
      obtain ⟨k0, v0⟩ := hd
      by_cases h0 : k = k0
      · subst h0
        simp [dictInsert, dictLookup, h]
      · by_cases h1 : k' = k0 <;> simp [dictInsert, dictLookup, h0, h1, ih]

theorem dictLookup_remove_self {κ α : Type} [DecidableEq κ]
    (d : List (κ × α)) (k : κ) :
    dictLookup (dictRemove d k) k = none := by
  induction d with
  | nil => simp [dictRemove, dictLookup]
  | cons hd tl ih =>
      obtain ⟨k0, v0⟩ := hd
      by_cases h0 : k = k0
      · subst h0
        simpa [dictRemove] using ih
      · simp [dictRemove, dictLookup, h0, Ne.symm h0, ih]

theorem dictLookup_remove_ne {κ α : Type} [DecidableEq κ]
    (d : List (κ × α)) (k k' : κ) (h : k' ≠ k) :
    dictLookup (dictRemove d k) k' = dictLookup d k' := by
  induction d with
  | nil => simp [dictRemove]
  | cons hd tl ih =>
      obtain ⟨k0, v0⟩ := hd
      by_cases h0 : k = k0
      · subst h0
        simp [dictRemove, dictLookup, ih, fun hc : k' = k => h hc]
      · by_cases h1 : k' = k0 <;> simp [dictRemove, dictLookup, h0, h1, ih]

/-- Two strings cannot both be a value of a string that starts with the
shorter when the shorter is not itself a prefix of the longer. -/
theorem strStartsWith_excl {s : String} (p q : String)
    (hlen : p.data.length ≤ q.data.length)
    (hpq : List.take p.data.length q.data ≠ p.data)
    (h1 : strStartsWith s p) : ¬ strStartsWith s q := by
  intro h2
  unfold strStartsWith at h1 h2
  apply hpq
  calc List.take p.data.length q.data
      = List.take p.data.length (List.take q.data.length s.data) := by rw [h2]
    _ = List.take p.data.length s.data := by
          rw [List.take_take, Nat.min_eq_left hlen]
    _ = p.data := h1

/-- A string that starts with `p` cannot equal a string that does not. -/
theorem strStartsWith_ne {s : String} (p t : String)
    (h1 : strStartsWith s p) (h2 : ¬ strStartsWith t p) : s ≠ t := by
  intro he; exact h2 (he ▸ h1)

/-! ## Claim theorems -/

/-- C4: for every method name and every registry state, handler resolution
applies the fixed precedence order — exact system names first, then the
namespaced keyed mapping for a `/tools/`, `/resources/`, or `/prompts/`
prefix, then the general method mapping, then the fallback handler, then
failure — and the first matching, non-empty registration wins.
`resolve_spec` is that contract written from the specification's words;
the source's `get_handler_for_message` agrees with it on every router and
message. -/
theorem c4_resolution_precedence (r : Router) (message : Message) :
    get_handler_for_message r message = resolve_spec r message.method := by
  obtain ⟨i, method, p⟩ := message
  simp only [get_handler_for_message, resolve_spec]
  by_cases h1 : method = "initialize"
  · subst h1
    cases hI : r.initialize_handler with
    | some h => simp [spec_system_lookup, firstOf, optGuard, hI]
    | none =>
        cases hM : dictLookup r.method_handlers "initialize" <;>
        cases hF : r.fallback_handler <;>
        simp [spec_system_lookup, spec_namespaced_lookup, spec_general_lookup,
          spec_fallback_lookup, firstOf, optGuard, hI, hM, hF,
          (show ¬ strStartsWith "initialize" "/tools/" by decide),
          (show ¬ strStartsWith "initialize" "/resources/" by decide),
          (show ¬ strStartsWith "initialize" "/prompts/" by decide)]
  by_cases h2 : method = "list_tools"
  · subst h2
    cases hI : r.list_tools_handler with
    | some h => simp [spec_system_lookup, firstOf, optGuard, hI]
    | none =>
        cases hM : dictLookup r.method_handlers "list_tools" <;>
        cases hF : r.fallback_handler <;>
        simp [spec_system_lookup, spec_namespaced_lookup, spec_general_lookup,
          spec_fallback_lookup, firstOf, optGuard, hI, hM, hF,
          (show ¬ strStartsWith "list_tools" "/tools/" by decide),
          (show ¬ strStartsWith "list_tools" "/resources/" by decide),
          (show ¬ strStartsWith "list_tools" "/prompts/" by decide)]
  by_cases h3 : method = "list_resources"
  · subst h3
    cases hI : r.list_resources_handler with
    | some h => simp [spec_system_lookup, firstOf, optGuard, hI,
        (show ¬ ("list_resources" = "initialize") by decide),
        (show ¬ ("list_resources" = "list_tools") by decide)]
    | none =>
        cases hM : dictLookup r.method_handlers "list_resources" <;>
        cases hF : r.fallback_handler <;>
        simp [spec_system_lookup, spec_namespaced_lookup, spec_general_lookup,
          spec_fallback_lookup, firstOf, optGuard, hI, hM, hF,
          (show ¬ strStartsWith "list_resources" "/tools/" by decide),
          (show ¬ strStartsWith "list_resources" "/resources/" by decide),
          (show ¬ strStartsWith "list_resources" "/prompts/" by decide)]
  by_cases h4 : method = "list_prompts"
  · subst h4
    cases hI : r.list_prompts_handler with
    | some h => simp [spec_system_lookup, firstOf, optGuard, hI]
    | none =>
        cases hM : dictLookup r.method_handlers "list_prompts" <;>
        cases hF : r.fallback_handler <;>
        simp [spec_system_lookup, spec_namespaced_lookup, spec_general_lookup,
          spec_fallback_lookup, firstOf, optGuard, hI, hM, hF,
          (show ¬ strStartsWith "list_prompts" "/tools/" by decide),
          (show ¬ strStartsWith "list_prompts" "/resources/" by decide),
          (show ¬ strStartsWith "list_prompts" "/prompts/" by decide)]
  by_cases h5 : strStartsWith method "/tools/"
  · have hR : ¬ strStartsWith method "/resources/" :=
      strStartsWith_excl "/tools/" "/resources/" (by decide) (by decide) h5
    have hP : ¬ strStartsWith method "/prompts/" :=
      strStartsWith_excl "/tools/" "/prompts/" (by decide) (by decide) h5
    cases hT : dictLookup r.tool_handlers method with
    | some h => simp [spec_system_lookup, spec_namespaced_lookup, firstOf, optGuard,
        h1, h2, h3, h4, h5, hT]
    | none =>
        cases hM : dictLookup r.method_handlers method <;>
        cases hF : r.fallback_handler <;>
        simp [spec_system_lookup, spec_namespaced_lookup, spec_general_lookup,
          spec_fallback_lookup, firstOf, optGuard, h1, h2, h3, h4, h5, hR, hP, hT, hM, hF]
  by_cases h6 : strStartsWith method "/resources/"
  · have hP : ¬ strStartsWith method "/prompts/" := fun hp =>
      (strStartsWith_excl "/prompts/" "/resources/" (by decide) (by decide) hp) h6
    cases hT : dictLookup r.resource_handlers method with
    | some h => simp [spec_system_lookup, spec_namespaced_lookup, firstOf, optGuard,
        h1, h2, h3, h4, h5, h6, hT]
    | none =>
        cases hM : dictLookup r.method_handlers method <;>
        cases hF : r.fallback_handler <;>
        simp [spec_system_lookup, spec_namespaced_lookup, spec_general_lookup,
          spec_fallback_lookup, firstOf, optGuard, h1, h2, h3, h4, h5, h6, hP, hT, hM, hF]
  by_cases h7 : strStartsWith method "/prompts/"
  · cases hT : dictLookup r.prompt_handlers method with
    | some h => simp [spec_system_lookup, spec_namespaced_lookup, firstOf, optGuard,
        h1, h2, h3, h4, h5, h6, h7, hT]
    | none =>
        cases hM : dictLookup r.method_handlers method <;>
        cases hF : r.fallback_handler <;>
        simp [spec_system_lookup, spec_namespaced_lookup, spec_general_lookup,
          spec_fallback_lookup, firstOf, optGuard, h1, h2, h3, h4, h5, h6, h7, hT, hM, hF]
  cases hM : dictLookup r.method_handlers method <;>
  cases hF : r.fallback_handler <;>
  simp [spec_system_lookup, spec_namespaced_lookup, spec_general_lookup,
    spec_fallback_lookup, firstOf, optGuard, h1, h2, h3, h4, h5, h6, h7, hM, hF]

/-- C1 counterexample: the claim says a `/tools/`-prefixed name with no TOOL
registration is never satisfied by a METHOD registration under the same
string and, with no fallback registered, resolution fails with `NotFound`
(category `none`).  On the router whose only registration is the METHOD
handler at `"/tools/x"`, resolving the method `"/tools/x"` in fact succeeds
with category `METHOD_CALL`. -/
theorem c1_counterexample :
    resolutionCategory rC1 "/tools/x" = some MessageType.METHOD_CALL
    ∧ resolutionCategory rC1 "/tools/x" ≠ none := by
  constructor <;> decide

/-- C1 amended: a method name carrying one of the three namespace prefixes
whose matching keyed mapping has no registration for it is not satisfied by
the keyed mappings, but resolution then falls through to the general METHOD
mapping — a METHOD registration under that exact string does satisfy it —
and only past that to the FALLBACK handler if registered, else fails with
`NotFound`. -/
theorem c1_amended (r : Router) (m : Message)
    (hpre : strStartsWith m.method "/tools/" ∨ strStartsWith m.method "/resources/"
            ∨ strStartsWith m.method "/prompts/")
    (hT : strStartsWith m.method "/tools/" → dictLookup r.tool_handlers m.method = none)
    (hR : strStartsWith m.method "/resources/" → dictLookup r.resource_handlers m.method = none)
    (hP : strStartsWith m.method "/prompts/" → dictLookup r.prompt_handlers m.method = none) :
    get_handler_for_message r m =
      match dictLookup r.method_handlers m.method with
      | some handler => .ok (handler, .METHOD_CALL)
      | none =>
        match r.fallback_handler with
        | some handler => .ok (handler, .UNKNOWN)
        | none => .error ⟨true, "No handler registered for method: " ++ m.method⟩ := by
  obtain ⟨i, method, p⟩ := m
  simp only [get_handler_for_message]
  rcases hpre with h | h | h
  · have h1 : method ≠ "initialize" :=
      strStartsWith_ne "/tools/" "initialize" h (by decide)
    have h2 : method ≠ "list_tools" :=
      strStartsWith_ne "/tools/" "list_tools" h (by decide)
    have h3 : method ≠ "list_resources" :=
      strStartsWith_ne "/tools/" "list_resources" h (by decide)
    have h4 : method ≠ "list_prompts" :=
      strStartsWith_ne "/tools/" "list_prompts" h (by decide)
    have hR' : ¬ strStartsWith method "/resources/" :=
      strStartsWith_excl "/tools/" "/resources/" (by decide) (by decide) h
    have hP' : ¬ strStartsWith method "/prompts/" :=
      strStartsWith_excl "/tools/" "/prompts/" (by decide) (by decide) h
    simp [optGuard, h1, h2, h3, h4, h, hR', hP', hT h]
  · have h1 : method ≠ "initialize" :=
      strStartsWith_ne "/resources/" "initialize" h (by decide)
    have h2 : method ≠ "list_tools" :=
      strStartsWith_ne "/resources/" "list_tools" h (by decide)
    have h3 : method ≠ "list_resources" :=
      strStartsWith_ne "/resources/" "list_resources" h (by decide)
    have h4 : method ≠ "list_prompts" :=
      strStartsWith_ne "/resources/" "list_prompts" h (by decide)
    have hT' : ¬ strStartsWith method "/tools/" := fun ht =>
      (strStartsWith_excl "/tools/" "/resources/" (by decide) (by decide) ht) h
    have hP' : ¬ strStartsWith method "/prompts/" := fun hp =>
      (strStartsWith_excl "/prompts/" "/resources/" (by decide) (by decide) hp) h
    simp [optGuard, h1, h2, h3, h4, h, hT', hP', hR h]
  · have h1 : method ≠ "initialize" :=
      strStartsWith_ne "/prompts/" "initialize" h (by decide)
    have h2 : method ≠ "list_tools" :=
      strStartsWith_ne "/prompts/" "list_tools" h (by decide)
    have h3 : method ≠ "list_resources" :=
      strStartsWith_ne "/prompts/" "list_resources" h (by decide)
    have h4 : method ≠ "list_prompts" :=
      strStartsWith_ne "/prompts/" "list_prompts" h (by decide)
    have hT' : ¬ strStartsWith method "/tools/" := fun ht =>
      (strStartsWith_excl "/tools/" "/prompts/" (by decide) (by decide) ht) h
    have hR' : ¬ strStartsWith method "/resources/" := fun hr =>
      (strStartsWith_excl "/prompts/" "/resources/" (by decide) (by decide) h) hr
    simp [optGuard, h1, h2, h3, h4, h, hT', hR', hP h]

/-- C1 amended, witnessed at the counterexample router: `"/tools/x"` has no
TOOL registration there, and resolution returns the METHOD handler. -/
theorem c1_amended_witness :
    strStartsWith "/tools/x" "/tools/"
    ∧ dictLookup rC1.tool_handlers "/tools/x" = none
    ∧ get_handler_for_message rC1 { method := "/tools/x" } =
        .ok (hOk, MessageType.METHOD_CALL) :=
  ⟨by decide, rfl, by
    have h := c1_amended rC1 { method := "/tools/x" }
      (Or.inl (by decide)) (fun _ => rfl) (fun _ => rfl) (fun _ => rfl)
    simpa [rC1, dictLookup] using h⟩

/-- C3 counterexample: the claim says every handler exception yields the
`-32000` envelope.  On the router whose METHOD handler at `"m"` raises
`ValueError("boom")`, dispatching `{id: 1, method: "m"}` instead yields the
`-32601` method-not-found envelope (the handler call sits inside the same
`try` as resolution, so its `ValueError` is caught by the
`except ValueError` branch). -/
theorem c3_counterexample :
    dispatch_message rC3 { id := some (.num 1), method := "m" } =
      [Envelope.error (some (.num 1)) (-32601) "Method not found: m"]
    ∧ dispatch_message rC3 { id := some (.num 1), method := "m" } ≠
      [Envelope.error (some (.num 1)) (-32000) "Error: boom"] := by
  refine ⟨rfl, ?_⟩
  have h : dispatch_message rC3 { id := some (.num 1), method := "m" } =
      [Envelope.error (some (.num 1)) (-32601) "Method not found: m"] := rfl
  rw [h]
  simp

/-- C3 amended: for every message carrying an id whose resolved handler
raises, the exception is never re-raised past the dispatcher
(`dispatch_message` is total and returns an envelope list); a
non-`ValueError` exception produces exactly
`{id, error:{code:-32000, message:"Error: <str(e)>"}}`, while a handler
`ValueError` is caught by the method-not-found branch and produces the
`-32601` envelope instead. -/
theorem c3_amended (r : Router) (m : Message) (i : JValue) (handler : Handler)
    (t : MessageType) (e : PyExc)
    (hres : get_handler_for_message r m = .ok (handler, t))
    (hcall : handler m = .error e)
    (hid : m.id = some i) :
    dispatch_message r m =
      if e.isValueError
      then [Envelope.error (some i) (-32601) ("Method not found: " ++ m.method)]
      else [Envelope.error (some i) (-32000) ("Error: " ++ e.msg)] := by
  cases he : e.isValueError <;>
  simp [dispatch_message, hres, hcall, hid, he]

/-- C3 amended, witnessed: the router whose METHOD handler at `"m"` raises
the non-`ValueError` exception `RuntimeError("Test handler error")` sends
exactly the `-32000` envelope for `{id: 1, method: "m"}`. -/
theorem c3_amended_witness :
    get_handler_for_message rC3b { id := some (.num 1), method := "m" } =
      .ok (hRuntimeError, MessageType.METHOD_CALL)
    ∧ hRuntimeError { id := some (.num 1), method := "m" } =
      .error ⟨false, "Test handler error"⟩
    ∧ dispatch_message rC3b { id := some (.num 1), method := "m" } =
      [Envelope.error (some (.num 1)) (-32000) "Error: Test handler error"] :=
  ⟨rfl, rfl, by
    have h := c3_amended rC3b { id := some (.num 1), method := "m" } (.num 1)
      hRuntimeError MessageType.METHOD_CALL ⟨false, "Test handler error"⟩ rfl rfl rfl
    simpa using h⟩

/-- C5: for a message with an id whose method resolves to no handler and no
FALLBACK registered (resolution raises `ValueError`), dispatch sends exactly
`{id, error:{code:-32601, message:"Method not found: <method>"}}` and raises
nothing to its caller (`dispatch_message` is total); when a FALLBACK is
registered, resolution yields it (category UNKNOWN) and its result is sent
as `{id, result}` instead. -/
theorem c5_not_found_envelope (r : Router) (m : Message) (i : JValue)
    (hid : m.id = some i) :
    (∀ e, get_handler_for_message r m = Except.error e →
      dispatch_message r m = [Envelope.error (some i) (-32601) ("Method not found: " ++ m.method)])
    ∧ (∀ (f : Handler) (v : JValue),
      get_handler_for_message r m = .ok (f, MessageType.UNKNOWN) → f m = .ok v →
      dispatch_message r m = [Envelope.result i v]) := by
  constructor
  · intro e hres
    simp [dispatch_message, hres, hid]
  · intro f v hres hcall
    simp [dispatch_message, hres, hcall, hid]

/-- C5 witnessed: on the empty router, `{id: 7, method: "nope"}` yields
exactly the `-32601` envelope; on the router with only a fallback, the
fallback's result is sent as `{id: 7, result: "ok"}`. -/
theorem c5_witness :
    dispatch_message r0 { id := some (.num 7), method := "nope" } =
      [Envelope.error (some (.num 7)) (-32601) "Method not found: nope"]
    ∧ dispatch_message rFb { id := some (.num 7), method := "nope" } =
      [Envelope.result (.num 7) (.str "ok")] :=
  ⟨by
    have h := (c5_not_found_envelope r0 { id := some (.num 7), method := "nope" }
      (.num 7) rfl).1 ⟨true, "No handler registered for method: nope"⟩ rfl
    simpa using h,
   by
    have h := (c5_not_found_envelope rFb { id := some (.num 7), method := "nope" }
      (.num 7) rfl).2 hOk (.str "ok") rfl rfl
    simpa using h⟩

/-- C6: a message with no id (a notification) never produces an outbound
envelope, whether the handler succeeds, raises (of any exception class), or
cannot be resolved at all. -/
theorem c6_notification_silent (r : Router) (m : Message) (hid : m.id = none) :
    dispatch_message r m = [] := by
  cases hres : get_handler_for_message r m with
  | ok pr =>
      obtain ⟨handler, t⟩ := pr
      cases hcall : handler m with
      | ok v => simp [dispatch_message, hres, hcall, hid]
      | error e => cases he : e.isValueError <;> simp [dispatch_message, hres, hcall, hid, he]
  | error e => simp [dispatch_message, hres, hid]

/-- C6 witnessed on three notifications: an unresolvable method, a handler
that raises, and a handler that succeeds — none sends anything. -/
theorem c6_witness :
    dispatch_message r0 { method := "nope" } = []
    ∧ dispatch_message rC3 { method := "m" } = []
    ∧ dispatch_message rC1 { method := "/tools/x" } = [] :=
  ⟨c6_notification_silent r0 { method := "nope" } rfl,
   c6_notification_silent rC3 { method := "m" } rfl,
   c6_notification_silent rC1 { method := "/tools/x" } rfl⟩

/-- C7: a raw frame that fails to parse as JSON makes the session send the
id-less envelope `{error:{code:-32700, message:"Invalid JSON"}}`, and the
receive loop continues: in a session whose frame stream contains the bad
frame in the middle, the frames before and after it are still processed and
their outputs sent in order. -/
theorem c7_parse_failure_continues (r : Router) (fresh : String) (ws : Nat)
    (st : SessionState) (raw : String) (fs1 fs2 : List Frame) (ending : LoopEnd) :
    process_message r (.invalid raw) = [Envelope.error none (-32700) "Invalid JSON"]
    ∧ (handle_websocket r fresh ws ⟨.ok, fs1 ++ Frame.invalid raw :: fs2, ending⟩ st).2.sent =
        fs1.flatMap (process_message r)
        ++ [Envelope.error none (-32700) "Invalid JSON"]
        ++ fs2.flatMap (process_message r) := by
  refine ⟨rfl, ?_⟩
  simp [handle_websocket, session_teardown, process_message]

/-- C8: with connection tracking disabled, `get_connection_id` and
`get_connection_data` return `None` for every websocket and key,
`set_connection_data` leaves the state unchanged, and a full connection
lifetime (`handle_websocket`, any script) never touches the identifier
tables — no identifier is generated or stashed. -/
theorem c8_tracking_disabled (r : Router) (st : SessionState) (ws : Nat)
    (key : Option String) (k : String) (v : JValue) (fresh : String) (script : Script)
    (h : r.enable_connection_tracking = false) :
    get_connection_id r st ws = none
    ∧ router_get_connection_data r st ws key = none
    ∧ router_set_connection_data r st ws k v = st
    ∧ (handle_websocket r fresh ws script st).1.mgr_connections = st.mgr_connections
    ∧ (handle_websocket r fresh ws script st).1.mgr_data = st.mgr_data
    ∧ (handle_websocket r fresh ws script st).1.ws_attrs = st.ws_attrs := by
  refine ⟨?_, ?_, ?_, ?_, ?_, ?_⟩ <;>
  first
  | simp [get_connection_id, router_get_connection_data, router_set_connection_data, h]
  | (cases hacc : script.accept <;>
     simp [handle_websocket, hacc, session_teardown, h] <;>
     split <;> rfl)

/-- C8 witnessed on the empty (tracking-disabled) router over a nonempty
tracked-looking state and a normal-close script. -/
theorem c8_witness :
    get_connection_id r0 stTracked 0 = none
    ∧ router_get_connection_data r0 stTracked 0 (some "k") = none
    ∧ router_set_connection_data r0 stTracked 0 "k" .null = stTracked
    ∧ (handle_websocket r0 "c2" 0 ⟨.ok, [], .closed⟩ stTracked).1.mgr_connections =
        stTracked.mgr_connections :=
  ⟨(c8_tracking_disabled r0 stTracked 0 (some "k") "k" .null "c2" ⟨.ok, [], .closed⟩ rfl).1,
   (c8_tracking_disabled r0 stTracked 0 (some "k") "k" .null "c2" ⟨.ok, [], .closed⟩ rfl).2.1,
   (c8_tracking_disabled r0 stTracked 0 (some "k") "k" .null "c2" ⟨.ok, [], .closed⟩ rfl).2.2.1,
   (c8_tracking_disabled r0 stTracked 0 (some "k") "k" .null "c2" ⟨.ok, [], .closed⟩ rfl).2.2.2.1⟩

/-- C9: on a tracked live connection, a value stored under key `k` is read
back as `v`; once teardown removes the connection's identifier from the
registry, `get_connection_data` yields the empty bag — `None` for every
key, so the stored value is gone. -/
theorem c9_data_round_trip (r : Router) (st : SessionState) (ws : Nat) (cid : String)
    (bag : List (String × JValue)) (k : String) (v : JValue)
    (htrack : r.enable_connection_tracking = true)
    (hattr : dictLookup st.ws_attrs ws = some cid)
    (hcid : cid ≠ "")
    (hbag : dictLookup st.mgr_data cid = some bag) :
    router_get_connection_data r (router_set_connection_data r st ws k v) ws (some k) = some v
    ∧ (∀ k', router_get_connection_data r
        (remove_connection (router_set_connection_data r st ws k v) cid) ws (some k') = none)
    ∧ router_get_connection_data r
        (remove_connection (router_set_connection_data r st ws k v) cid) ws none =
        some (.obj []) := by
  have hset : router_set_connection_data r st ws k v =
      { st with mgr_data := dictInsert st.mgr_data cid (dictInsert bag k v) } := by
    simp [router_set_connection_data, get_connection_id, htrack, hattr, hcid,
      mgr_set_connection_data, hbag]
  refine ⟨?_, ?_, ?_⟩
  · simp [router_get_connection_data, get_connection_id, htrack, hattr, hcid, hset,
      mgr_get_connection_data, dictLookup_insert_self]
  · intro k'
    simp [router_get_connection_data, get_connection_id, htrack, hset, remove_connection,
      hattr, hcid, mgr_get_connection_data, dictLookup_remove_self, dictLookup]
  · simp [router_get_connection_data, get_connection_id, htrack, hset, remove_connection,
      hattr, hcid, mgr_get_connection_data, dictLookup_remove_self]

/-- C9 witnessed on the tracked fixture: store `"v"` under `"k"`, read it
back, then remove the identifier and observe the empty bag / `None`. -/
theorem c9_witness :
    router_get_connection_data rTrack
      (router_set_connection_data rTrack stTracked 0 "k" (.str "v")) 0 (some "k") =
      some (.str "v")
    ∧ router_get_connection_data rTrack
        (remove_connection (router_set_connection_data rTrack stTracked 0 "k" (.str "v")) "c")
        0 (some "k") = none :=
  ⟨(c9_data_round_trip rTrack stTracked 0 "c" [] "k" (.str "v") rfl rfl (by decide) rfl).1,
   (c9_data_round_trip rTrack stTracked 0 "c" [] "k" (.str "v") rfl rfl (by decide) rfl).2.1 "k"⟩

/-- C10: after teardown removes a tracked connection's registry entries,
`get_connection_id` still returns the previously generated identifier
(it reads the `connection_id` attribute stashed on the websocket object,
which removal never clears) even though the registry's index and data bag
are gone. -/
theorem c10_id_survives_removal (r : Router) (st : SessionState) (ws : Nat) (cid : String)
    (htrack : r.enable_connection_tracking = true)
    (hattr : dictLookup st.ws_attrs ws = some cid) :
    get_connection_id r (remove_connection st cid) ws = some cid
    ∧ get_connection_id r (remove_connection st cid) ws ≠ none
    ∧ dictLookup (remove_connection st cid).mgr_connections cid = none
    ∧ dictLookup (remove_connection st cid).mgr_data cid = none := by
  refine ⟨?_, ?_, ?_, ?_⟩
  · simp [get_connection_id, htrack, remove_connection, hattr]
  · simp [get_connection_id, htrack, remove_connection, hattr]
  · simp [remove_connection, dictLookup_remove_self]
  · simp [remove_connection, dictLookup_remove_self]

/-- C10 witnessed on the tracked fixture: removal erases the registry rows
but `get_connection_id` still answers `"c"`. -/
theorem c10_witness :
    get_connection_id rTrack (remove_connection stTracked "c") 0 = some "c"
    ∧ dictLookup (remove_connection stTracked "c").mgr_data "c" = none :=
  ⟨(c10_id_survives_removal rTrack stTracked 0 "c" rfl rfl).1,
   (c10_id_survives_removal rTrack stTracked 0 "c" rfl rfl).2.2.2⟩

/-- C2: the `finally` teardown runs exactly once per `handle_websocket`
call (one call = one connection lifetime), on every exit path — normal
close, malformed frames, handler exceptions (handlers never abort the loop:
`dispatch_message` is total), accept failure, and a receive that raises a
disconnect before any message: the ON_DISCONNECT handler is invoked exactly
once, with exactly the synthetic message `{method:"on_disconnect"}`, and
regardless of that handler's outcome (the theorem quantifies over it) the
connection ends outside the Active Connection Set with its identifier and
data bag absent from the registry; each removal executes at most once, and
exactly once whenever accept succeeded (so the connection was actually
added). -/
theorem c2_teardown_exactly_once (r : Router) (hod : Handler)
    (hreg : r.on_disconnect_handler = some hod)
    (fresh : String) (hfresh : fresh ≠ "")
    (ws : Nat) (script : Script) (st : SessionState)
    (hws_active : ws ∉ st.active_connections)
    (hws_attr : dictLookup st.ws_attrs ws = none)
    (hfresh_conn : dictLookup st.mgr_connections fresh = none)
    (hfresh_data : dictLookup st.mgr_data fresh = none) :
    (handle_websocket r fresh ws script st).2.on_disconnect_invocations =
      [{ method := "on_disconnect" }]
    ∧ ws ∉ (handle_websocket r fresh ws script st).1.active_connections
    ∧ (r.enable_connection_tracking = true →
        dictLookup (handle_websocket r fresh ws script st).1.mgr_connections fresh = none
        ∧ dictLookup (handle_websocket r fresh ws script st).1.mgr_data fresh = none)
    ∧ (handle_websocket r fresh ws script st).2.registry_removals ≤ 1
    ∧ (handle_websocket r fresh ws script st).2.active_removals ≤ 1
    ∧ (script.accept = .ok →
        (handle_websocket r fresh ws script st).2.active_removals = 1
        ∧ (r.enable_connection_tracking = true →
            (handle_websocket r fresh ws script st).2.registry_removals = 1)) := by
  cases hacc : script.accept <;>
  cases htr : r.enable_connection_tracking <;>
  refine ⟨?_, ?_, ?_, ?_, ?_, ?_⟩ <;>
  simp [handle_websocket, hacc, htr, session_teardown, add_connection, remove_connection,
    setAdd, hreg, hws_active, hws_attr, hfresh_conn, hfresh_data, hfresh,
    dictLookup_insert_self, dictLookup_remove_self, List.erase_cons_head]

/-- C2 witnessed on the tracking-enabled fixture router, a fresh state and a
normal-close script: one ON_DISCONNECT invocation, one registry removal,
one active-set removal. -/
theorem c2_witness :
    (handle_websocket rC2 "c1" 0 ⟨.ok, [], .closed⟩ {}).2.on_disconnect_invocations =
      [{ method := "on_disconnect" }]
    ∧ 0 ∉ (handle_websocket rC2 "c1" 0 ⟨.ok, [], .closed⟩ {}).1.active_connections
    ∧ (handle_websocket rC2 "c1" 0 ⟨.ok, [], .closed⟩ {}).2.registry_removals = 1
    ∧ (handle_websocket rC2 "c1" 0 ⟨.ok, [], .closed⟩ {}).2.active_removals = 1 :=
  have h := c2_teardown_exactly_once rC2 hOk rfl "c1" (by decide) 0 ⟨.ok, [], .closed⟩ {}
    (by decide) rfl rfl rfl
  ⟨h.1, h.2.1, (h.2.2.2.2.2 rfl).2 rfl, (h.2.2.2.2.2 rfl).1⟩
